import Mathlib

/-!
Verification of the handle-management layer of an embedded SD/MMC filesystem
wrapper (`src/handle.rs`).  The layer places scoped handle objects
(controller → volume → directory/file) above a stateful driver, serialising
mutable access through `RefCell` borrow guards and releasing driver tokens
automatically when a handle's scope ends.

The driver (`Controller<D, T>` and the record types `Volume`, `Directory`,
`File`, `Mode`, `Error`) lives outside the wrapper source, so those are
modelled abstractly from the specification; the handle layer itself is
translated function-by-function from `handle.rs`.
-/

namespace Sdmmc

/-- Modelled from the spec: the error type shared by the wrapper and the
driver (the crate-level `Error<E>` enum, not part of the wrapper source).
`controllerInUse` / `volumeInUse` are the wrapper-generated exclusivity-guard
failures; every driver-surfaced failure (invalid index, I/O failure,
format/parse failure, not-found, mode violation) is collected in
`deviceError`. -/
inductive Error (ε : Type) where
  | controllerInUse : Error ε
  | volumeInUse : Error ε
  | deviceError (e : ε) : Error ε
deriving DecidableEq, Repr

/-- Modelled from the spec: a FAT volume record; the wrapper consumes the
fields block count (`num_blocks`, a `BlockCount` newtype around an integer),
blocks-per-cluster, cluster count and the optional free-cluster count. -/
structure FatVolume where
  num_blocks : Nat
  blocks_per_cluster : Nat
  cluster_count : Nat
  free_clusters_count : Option Nat
deriving DecidableEq, Repr

/-- Modelled from the spec: the driver-side volume record; the wrapper only
matches on its `volume_type` field. -/
inductive VolumeType where
  | fat (f : FatVolume) : VolumeType
deriving DecidableEq, Repr

/-- Modelled from the spec: driver-side record for a mounted logical
volume. -/
structure Volume where
  volume_type : VolumeType
deriving DecidableEq, Repr

/-- Modelled from the spec: opaque driver-side token for an open directory
traversal context; the payload only gives tokens an identity. -/
structure Directory where
  id : Nat
deriving DecidableEq, Repr

/-- Modelled from the spec: opaque driver-side token for an open file, with a
read/write offset and a cached length (the wrapper reads `length` in
`FileHandle::size`). -/
structure File where
  length : Nat
  current_offset : Nat
deriving DecidableEq, Repr

/-- Modelled from the spec: the abstract driver contract consumed by the
wrapper (spec §6).  `σ` is the driver's private state (`Controller<D, T>`),
`ε` the device error type `D::Error`, `μ` the opaque `Mode` enumeration.
Arguments taken by `&mut` in the contract (`σ` always, `Volume` in
`open_file_in_dir`/`read`/`write`, `File` in `read`/`write`) are returned
updated alongside the result, also on the error path; `close_dir` has no
failure channel.  A read buffer is represented by its length and a write
buffer by its byte list, since the wrapper never inspects buffer contents. -/
structure Driver (σ ε μ : Type) where
  get_volume : σ → Nat → Except (Error ε) Volume × σ
  open_root_dir : σ → Volume → Except (Error ε) Directory × σ
  close_dir : σ → Volume → Directory → σ
  open_file_in_dir : σ → Volume → Directory → String → μ → Except (Error ε) File × Volume × σ
  close_file : σ → Volume → File → Except (Error ε) Unit × σ
  read : σ → Volume → File → Nat → Except (Error ε) Nat × Volume × File × σ
  write : σ → Volume → File → List Nat → Except (Error ε) Nat × Volume × File × σ

/-- Embeds `ControllerHandle` from `handle.rs` with the `RefCell<Controller<D, T>>`
expanded into its contents (`controller`) and its borrow flag (`borrowed`):
`borrowed = true` means a `RefMut` on the controller is outstanding, so
`try_borrow_mut` fails. -/
structure ControllerHandle (σ : Type) where
  controller : σ
  borrowed : Bool
deriving Repr

/-- Embeds `VolumeHandle` from `handle.rs` with the `RefCell<Volume>` expanded into
its contents and borrow flag.  The `controller: &'a C` back-reference is
represented by threading the `ControllerHandle` state explicitly through
every operation. -/
structure VolumeHandle where
  volume : Volume
  borrowed : Bool
deriving DecidableEq, Repr

/-- Embeds `DirectoryHandle` from `handle.rs`: holds `directory: Option<Directory>`,
`Some` until the drop handler takes it.  Parent back-references are threaded
explicitly. -/
structure DirectoryHandle where
  directory : Option Directory
deriving DecidableEq, Repr

/-- Embeds `FileHandle` from `handle.rs`: holds `file: Option<File>`, `Some` until
the drop handler takes it. -/
structure FileHandle where
  file : Option File
deriving DecidableEq, Repr

section Operations

variable {σ ε μ : Type}

/-- Embeds `ControllerHandle::volume` (`handle.rs:83-90`): acquire the controller
guard (`self.controller()?`, i.e. `try_borrow_mut`), call
`controller.get_volume(VolumeIdx(index))?`, and wrap the resulting volume in
a fresh `VolumeHandle` (fresh `RefCell`, so its flag starts clear).  The
`RefMut` is dropped when the method returns — on the error path as on the
success path — which restores the flag. -/
def ControllerHandle.volume (drv : Driver σ ε μ) (ch : ControllerHandle σ) (index : Nat) :
    Except (Error ε) VolumeHandle × ControllerHandle σ :=
  if ch.borrowed then (.error .controllerInUse, ch)
  else
    let ch₁ : ControllerHandle σ := { ch with borrowed := true }
    let r := drv.get_volume ch₁.controller index
    let ch₂ : ControllerHandle σ := { ch₁ with controller := r.2 }
    match r.1 with
    | .error e => (.error e, { ch₂ with borrowed := false })
    | .ok v => (.ok { volume := v, borrowed := false }, { ch₂ with borrowed := false })

/-- Embeds `ControllerHandle::root` (`handle.rs:91-103`): acquire the controller
guard, then the volume guard (`volume.volume()?`), call
`controller.open_root_dir(&volume_ref)?`, and wrap the directory token in a
`DirectoryHandle` with `directory: Some(directory)`.  Both `RefMut`s are
dropped on return. -/
def ControllerHandle.root (drv : Driver σ ε μ) (ch : ControllerHandle σ) (vh : VolumeHandle) :
    Except (Error ε) DirectoryHandle × ControllerHandle σ × VolumeHandle :=
  if ch.borrowed then (.error .controllerInUse, ch, vh)
  else
    let ch₁ : ControllerHandle σ := { ch with borrowed := true }
    if vh.borrowed then (.error .volumeInUse, { ch₁ with borrowed := false }, vh)
    else
      let vh₁ : VolumeHandle := { vh with borrowed := true }
      let r := drv.open_root_dir ch₁.controller vh₁.volume
      let ch₂ : ControllerHandle σ := { ch₁ with controller := r.2 }
      match r.1 with
      | .error e => (.error e, { ch₂ with borrowed := false }, { vh₁ with borrowed := false })
      | .ok d =>
          (.ok { directory := some d }, { ch₂ with borrowed := false },
            { vh₁ with borrowed := false })

/-- Embeds `ControllerHandle::close_directory` (`handle.rs:104-113`): acquire both
guards, then `controller.close_dir(&volume, directory)` — which has no
failure channel — and return `Ok(())`. -/
def ControllerHandle.close_directory (drv : Driver σ ε μ) (ch : ControllerHandle σ)
    (vh : VolumeHandle) (directory : Directory) :
    Except (Error ε) Unit × ControllerHandle σ × VolumeHandle :=
  if ch.borrowed then (.error .controllerInUse, ch, vh)
  else
    let ch₁ : ControllerHandle σ := { ch with borrowed := true }
    if vh.borrowed then (.error .volumeInUse, { ch₁ with borrowed := false }, vh)
    else
      let vh₁ : VolumeHandle := { vh with borrowed := true }
      let c' := drv.close_dir ch₁.controller vh₁.volume directory
      (.ok (), { ch₁ with controller := c', borrowed := false },
        { vh₁ with borrowed := false })

/-- Embeds `ControllerHandle::file` (`handle.rs:114-129`): acquire both guards, call
`controller.open_file_in_dir(&mut volume_ref, directory, name, mode)?`
(which may mutate the volume through the `&mut` borrow, also on failure), and
wrap the file token in a `FileHandle` with `file: Some(file)`. -/
def ControllerHandle.file (drv : Driver σ ε μ) (ch : ControllerHandle σ) (vh : VolumeHandle)
    (directory : Directory) (name : String) (mode : μ) :
    Except (Error ε) FileHandle × ControllerHandle σ × VolumeHandle :=
  if ch.borrowed then (.error .controllerInUse, ch, vh)
  else
    let ch₁ : ControllerHandle σ := { ch with borrowed := true }
    if vh.borrowed then (.error .volumeInUse, { ch₁ with borrowed := false }, vh)
    else
      let vh₁ : VolumeHandle := { vh with borrowed := true }
      let r := drv.open_file_in_dir ch₁.controller vh₁.volume directory name mode
      let ch₂ : ControllerHandle σ := { ch₁ with controller := r.2.2 }
      let vh₂ : VolumeHandle := { vh₁ with volume := r.2.1 }
      match r.1 with
      | .error e => (.error e, { ch₂ with borrowed := false }, { vh₂ with borrowed := false })
      | .ok f =>
          (.ok { file := some f }, { ch₂ with borrowed := false },
            { vh₂ with borrowed := false })

/-- Embeds `ControllerHandle::close_file` (`handle.rs:130-138`): acquire both
guards, then return `controller.close_file(&volume, file)` — the driver's
result, error or not, is passed straight back. -/
def ControllerHandle.close_file (drv : Driver σ ε μ) (ch : ControllerHandle σ)
    (vh : VolumeHandle) (file : File) :
    Except (Error ε) Unit × ControllerHandle σ × VolumeHandle :=
  if ch.borrowed then (.error .controllerInUse, ch, vh)
  else
    let ch₁ : ControllerHandle σ := { ch with borrowed := true }
    if vh.borrowed then (.error .volumeInUse, { ch₁ with borrowed := false }, vh)
    else
      let vh₁ : VolumeHandle := { vh with borrowed := true }
      let r := drv.close_file ch₁.controller vh₁.volume file
      (r.1, { ch₁ with controller := r.2, borrowed := false },
        { vh₁ with borrowed := false })

/-- Embeds `ControllerHandle::read` (`handle.rs:139-148`): acquire both guards, then
`controller.read(&mut volume, file, buffer)`; the `&mut Volume` and
`&mut File` updates persist on every path. -/
def ControllerHandle.read (drv : Driver σ ε μ) (ch : ControllerHandle σ) (vh : VolumeHandle)
    (file : File) (bufLen : Nat) :
    Except (Error ε) Nat × ControllerHandle σ × VolumeHandle × File :=
  if ch.borrowed then (.error .controllerInUse, ch, vh, file)
  else
    let ch₁ : ControllerHandle σ := { ch with borrowed := true }
    if vh.borrowed then (.error .volumeInUse, { ch₁ with borrowed := false }, vh, file)
    else
      let vh₁ : VolumeHandle := { vh with borrowed := true }
      let r := drv.read ch₁.controller vh₁.volume file bufLen
      (r.1, { ch₁ with controller := r.2.2.2, borrowed := false },
        { vh₁ with volume := r.2.1, borrowed := false }, r.2.2.1)

/-- Embeds `ControllerHandle::write` (`handle.rs:149-158`): acquire both guards,
then `controller.write(&mut volume, file, data)`. -/
def ControllerHandle.write (drv : Driver σ ε μ) (ch : ControllerHandle σ) (vh : VolumeHandle)
    (file : File) (data : List Nat) :
    Except (Error ε) Nat × ControllerHandle σ × VolumeHandle × File :=
  if ch.borrowed then (.error .controllerInUse, ch, vh, file)
  else
    let ch₁ : ControllerHandle σ := { ch with borrowed := true }
    if vh.borrowed then (.error .volumeInUse, { ch₁ with borrowed := false }, vh, file)
    else
      let vh₁ : VolumeHandle := { vh with borrowed := true }
      let r := drv.write ch₁.controller vh₁.volume file data
      (r.1, { ch₁ with controller := r.2.2.2, borrowed := false },
        { vh₁ with volume := r.2.1, borrowed := false }, r.2.2.1)

/-- Embeds `VolumeHandle::root` (`handle.rs:178-180`): delegates to
`self.controller.root(&self)`. -/
def VolumeHandle.root (drv : Driver σ ε μ) (ch : ControllerHandle σ) (vh : VolumeHandle) :
    Except (Error ε) DirectoryHandle × ControllerHandle σ × VolumeHandle :=
  ControllerHandle.root drv ch vh

/-- Embeds `VolumeHandle::num_blocks` (`handle.rs:181-187`): acquire the volume
guard only, match the volume type and return the FAT record's block count
(`num_blocks.0`).  The `RefMut` is dropped on return. -/
def VolumeHandle.num_blocks (vh : VolumeHandle) : Except (Error ε) Nat × VolumeHandle :=
  if vh.borrowed then (.error .volumeInUse, vh)
  else
    let vh₁ : VolumeHandle := { vh with borrowed := true }
    let n := match vh₁.volume.volume_type with
      | .fat fat => fat.num_blocks
    (.ok n, { vh₁ with borrowed := false })

/-- Embeds `VolumeHandle::blocks_per_cluster` (`handle.rs:188-194`). -/
def VolumeHandle.blocks_per_cluster (vh : VolumeHandle) :
    Except (Error ε) Nat × VolumeHandle :=
  if vh.borrowed then (.error .volumeInUse, vh)
  else
    let vh₁ : VolumeHandle := { vh with borrowed := true }
    let n := match vh₁.volume.volume_type with
      | .fat fat => fat.blocks_per_cluster
    (.ok n, { vh₁ with borrowed := false })

/-- Embeds `VolumeHandle::cluster_count` (`handle.rs:195-201`). -/
def VolumeHandle.cluster_count (vh : VolumeHandle) : Except (Error ε) Nat × VolumeHandle :=
  if vh.borrowed then (.error .volumeInUse, vh)
  else
    let vh₁ : VolumeHandle := { vh with borrowed := true }
    let n := match vh₁.volume.volume_type with
      | .fat fat => fat.cluster_count
    (.ok n, { vh₁ with borrowed := false })

/-- Embeds `VolumeHandle::free_clusters_count` (`handle.rs:202-208`): acquire the
volume guard, read the optional free-cluster count of the FAT record and
return `free_clusters_count.unwrap_or(0)`. -/
def VolumeHandle.free_clusters_count (vh : VolumeHandle) :
    Except (Error ε) Nat × VolumeHandle :=
  if vh.borrowed then (.error .volumeInUse, vh)
  else
    let vh₁ : VolumeHandle := { vh with borrowed := true }
    let n := match vh₁.volume.volume_type with
      | .fat fat => fat.free_clusters_count
    (.ok (n.getD 0), { vh₁ with borrowed := false })

/-- Embeds `DirectoryHandle::file` (`handle.rs:225-228`):
`self.controller.file(self.volume, &self.directory.as_ref().unwrap(), name,
mode)`.  The `unwrap` of the token is modelled by the outer `Option`: `none`
is the panic.  `&self`, so the directory handle itself is unchanged. -/
def DirectoryHandle.file (drv : Driver σ ε μ) (ch : ControllerHandle σ) (vh : VolumeHandle)
    (dh : DirectoryHandle) (name : String) (mode : μ) :
    Option (Except (Error ε) FileHandle × ControllerHandle σ × VolumeHandle) :=
  match dh.directory with
  | none => none
  | some d => some (ControllerHandle.file drv ch vh d name mode)

/-- Embeds `DirectoryHandle::drop` (`handle.rs:230-243`):
`self.controller.close_directory(self.volume, self.directory.take().unwrap())`;
an `Err` from it is written to the log (`log::info!`) and discarded — the
drop has no error channel of its own.  The returned list is the sequence of
log entries emitted; the outer `Option` is `none` when the `unwrap` of the
taken token panics.  After `take()` the handle's option is `None`. -/
def DirectoryHandle.drop (drv : Driver σ ε μ) (ch : ControllerHandle σ) (vh : VolumeHandle)
    (dh : DirectoryHandle) :
    Option (ControllerHandle σ × VolumeHandle × DirectoryHandle × List (Error ε)) :=
  match dh.directory with
  | none => none
  | some d =>
    let r := ControllerHandle.close_directory drv ch vh d
    let logged : List (Error ε) := match r.1 with
      | .error e => [e]
      | .ok _ => []
    some (r.2.1, r.2.2, { directory := none }, logged)

/-- Embeds `FileHandle::read` (`handle.rs:259-262`):
`self.controller.read(self.volume, &mut self.file.as_mut().unwrap(), buffer)`.
The token is mutated in place through the `&mut` borrow, so the option stays
`Some`; `none` is the `unwrap` panic. -/
def FileHandle.read (drv : Driver σ ε μ) (ch : ControllerHandle σ) (vh : VolumeHandle)
    (fh : FileHandle) (bufLen : Nat) :
    Option (Except (Error ε) Nat × ControllerHandle σ × VolumeHandle × FileHandle) :=
  match fh.file with
  | none => none
  | some f =>
    let r := ControllerHandle.read drv ch vh f bufLen
    some (r.1, r.2.1, r.2.2.1, { file := some r.2.2.2 })

/-- Embeds `FileHandle::write` (`handle.rs:263-266`):
`self.controller.write(self.volume, &mut self.file.as_mut().unwrap(), data)`. -/
def FileHandle.write (drv : Driver σ ε μ) (ch : ControllerHandle σ) (vh : VolumeHandle)
    (fh : FileHandle) (data : List Nat) :
    Option (Except (Error ε) Nat × ControllerHandle σ × VolumeHandle × FileHandle) :=
  match fh.file with
  | none => none
  | some f =>
    let r := ControllerHandle.write drv ch vh f data
    some (r.1, r.2.1, r.2.2.1, { file := some r.2.2.2 })

/-- Embeds `FileHandle::size` (`handle.rs:267-269`):
`self.file.as_ref().unwrap().length` — a pure projection of the cached
length field; it takes no driver, no controller state and no guard.  `none`
is the `unwrap` panic. -/
def FileHandle.size (fh : FileHandle) : Option Nat :=
  fh.file.map File.length

/-- Embeds `FileHandle::drop` (`handle.rs:271-284`):
`self.controller.close_file(self.volume, self.file.take().unwrap())`; an
`Err` is logged and discarded, as in `DirectoryHandle::drop`. -/
def FileHandle.drop (drv : Driver σ ε μ) (ch : ControllerHandle σ) (vh : VolumeHandle)
    (fh : FileHandle) :
    Option (ControllerHandle σ × VolumeHandle × FileHandle × List (Error ε)) :=
  match fh.file with
  | none => none
  | some f =>
    let r := ControllerHandle.close_file drv ch vh f
    let logged : List (Error ε) := match r.1 with
      | .error e => [e]
      | .ok _ => []
    some (r.2.1, r.2.2, { file := none }, logged)

/-- Embeds `ControllerTrait::write_root_file` (`handle.rs:63-74`): the composite
`let volume = self.volume(volume)?; let root = volume.root()?;
let mut file = root.file(name, mode)?; file.write(data)` — plus the drops
Rust inserts when the function's scope ends: on each `?` early return the
locals already in scope are dropped in reverse declaration order, and on the
tail path `file`, `root`, `volume` are dropped (in that order) after
`file.write(data)` has been evaluated.  `VolumeHandle` has no `Drop`
implementation, so dropping it performs no driver call.  `none` is an
`unwrap` panic inside one of the steps or drops. -/
def ControllerHandle.write_root_file (drv : Driver σ ε μ) (ch : ControllerHandle σ)
    (index : Nat) (name : String) (mode : μ) (data : List Nat) :
    Option (Except (Error ε) Nat × ControllerHandle σ) :=
  match ControllerHandle.volume drv ch index with
  | (.error e, ch₁) => some (.error e, ch₁)
  | (.ok vh, ch₁) =>
    match VolumeHandle.root drv ch₁ vh with
    | (.error e, ch₂, _) => some (.error e, ch₂)
    | (.ok dh, ch₂, vh₂) =>
      match DirectoryHandle.file drv ch₂ vh₂ dh name mode with
      | none => none
      | some (.error e, ch₃, vh₃) =>
        match DirectoryHandle.drop drv ch₃ vh₃ dh with
        | none => none
        | some (ch₄, _, _, _) => some (.error e, ch₄)
      | some (.ok fh, ch₃, vh₃) =>
        match FileHandle.write drv ch₃ vh₃ fh data with
        | none => none
        | some (r, ch₄, vh₄, fh₄) =>
          match FileHandle.drop drv ch₄ vh₄ fh₄ with
          | none => none
          | some (ch₅, vh₅, _, _) =>
            match DirectoryHandle.drop drv ch₅ vh₅ dh with
            | none => none
            | some (ch₆, _, _, _) => some (r, ch₆)

end Operations

/-! ### Trace instrumentation

To state "the driver's release operation is invoked exactly once", the
abstract driver is wrapped so that its state also records the sequence of
driver calls made.  The wrapper operations are generic in the driver state,
so they run unchanged over the instrumented driver. -/

/-- One driver-level call, as recorded by the instrumented driver. -/
inductive Event (μ : Type) where
  | get_volume (index : Nat) : Event μ
  | open_root_dir : Event μ
  | close_dir (d : Directory) : Event μ
  | open_file_in_dir (name : String) (mode : μ) : Event μ
  | close_file (f : File) : Event μ
  | read (f : File) (bufLen : Nat) : Event μ
  | write (f : File) (data : List Nat) : Event μ
deriving Repr

variable {σ ε μ : Type}

/-- Instrumented driver: behaves exactly like `drv` on the first state
component and appends one `Event` per call to the second. -/
def Driver.traced (drv : Driver σ ε μ) : Driver (σ × List (Event μ)) ε μ where
  get_volume := fun s i =>
    let r := drv.get_volume s.1 i
    (r.1, r.2, s.2 ++ [.get_volume i])
  open_root_dir := fun s v =>
    let r := drv.open_root_dir s.1 v
    (r.1, r.2, s.2 ++ [.open_root_dir])
  close_dir := fun s v d => (drv.close_dir s.1 v d, s.2 ++ [.close_dir d])
  open_file_in_dir := fun s v d name mode =>
    let r := drv.open_file_in_dir s.1 v d name mode
    (r.1, r.2.1, r.2.2, s.2 ++ [.open_file_in_dir name mode])
  close_file := fun s v f =>
    let r := drv.close_file s.1 v f
    (r.1, r.2, s.2 ++ [.close_file f])
  read := fun s v f n =>
    let r := drv.read s.1 v f n
    (r.1, r.2.1, r.2.2.1, r.2.2.2, s.2 ++ [.read f n])
  write := fun s v f data =>
    let r := drv.write s.1 v f data
    (r.1, r.2.1, r.2.2.1, r.2.2.2, s.2 ++ [.write f data])

/-- Is this event a `close_dir` call? -/
def Event.isCloseDir : Event μ → Bool
  | .close_dir _ => true
  | _ => false

/-- Is this event a `close_file` call? -/
def Event.isCloseFile : Event μ → Bool
  | .close_file _ => true
  | _ => false

/-- Number of `close_dir` calls in a trace. -/
def closeDirCount (tr : List (Event μ)) : Nat := (tr.filter Event.isCloseDir).length

/-- Number of `close_file` calls in a trace. -/
def closeFileCount (tr : List (Event μ)) : Nat := (tr.filter Event.isCloseFile).length

/-- The trace component of an instrumented controller state. -/
def ControllerHandle.trace (ch : ControllerHandle (σ × List (Event μ))) : List (Event μ) :=
  ch.controller.2

/-! ### Client programs over a handle's lifetime

A handle's lifetime is: creation by a successful open, an arbitrary sequence
of calls through its public interface, then the drop the compiler inserts
when its scope ends (by normal return or by error propagation alike). -/

/-- A public-interface call on a `FileHandle`: `read`, `write` or `size`. -/
inductive FileOp (μ : Type) where
  | read (bufLen : Nat) : FileOp μ
  | write (data : List Nat) : FileOp μ
  | size : FileOp μ

/-- Run a sequence of public `FileHandle` calls.  Errors returned by
`read`/`write` go to the caller and do not end the handle's life; `none`
is an `unwrap` panic. -/
def runFileOps (drv : Driver σ ε μ) :
    List (FileOp μ) → ControllerHandle σ → VolumeHandle → FileHandle →
    Option (ControllerHandle σ × VolumeHandle × FileHandle)
  | [], ch, vh, fh => some (ch, vh, fh)
  | .read n :: ops, ch, vh, fh =>
    match FileHandle.read drv ch vh fh n with
    | none => none
    | some (_, ch', vh', fh') => runFileOps drv ops ch' vh' fh'
  | .write data :: ops, ch, vh, fh =>
    match FileHandle.write drv ch vh fh data with
    | none => none
    | some (_, ch', vh', fh') => runFileOps drv ops ch' vh' fh'
  | .size :: ops, ch, vh, fh =>
    match FileHandle.size fh with
    | none => none
    | some _ => runFileOps drv ops ch vh fh

/-- A public-interface call on a `DirectoryHandle`: open a file in it (the
resulting file handle lives in a nested scope and is dropped at its end). -/
inductive DirOp (μ : Type) where
  | file (name : String) (mode : μ) : DirOp μ

/-- Run a sequence of public `DirectoryHandle` calls.  Each successfully
opened file handle is dropped when its nested scope ends. -/
def runDirOps (drv : Driver σ ε μ) :
    List (DirOp μ) → ControllerHandle σ → VolumeHandle → DirectoryHandle →
    Option (ControllerHandle σ × VolumeHandle × DirectoryHandle)
  | [], ch, vh, dh => some (ch, vh, dh)
  | .file name mode :: ops, ch, vh, dh =>
    match DirectoryHandle.file drv ch vh dh name mode with
    | none => none
    | some (.error _, ch', vh') => runDirOps drv ops ch' vh' dh
    | some (.ok fh, ch', vh') =>
      match FileHandle.drop drv ch' vh' fh with
      | none => none
      | some (ch'', vh'', _, _) => runDirOps drv ops ch'' vh'' dh

/-! ### The spec-side description of `write_root_file`

The specification describes `write_root_file` as "behaviorally equivalent to
the explicit sequence open-volume → open-root → open-file → write", with the
first error of the sequence propagated and all intermediate handles released
automatically before it returns. -/

/-- Modelled from the spec: the explicit client-side sequence
open-volume → open-root → open-file → write, written as a caller of the
public interface would write it, with each intermediate handle released
(dropped) when its enclosing scope ends — on early error exits as on the
normal exit, innermost first. -/
def explicitWriteSequence (drv : Driver σ ε μ) (ch : ControllerHandle σ)
    (index : Nat) (name : String) (mode : μ) (data : List Nat) :
    Option (Except (Error ε) Nat × ControllerHandle σ) :=
  match ControllerHandle.volume drv ch index with
  | (.error e, ch₁) => some (.error e, ch₁)
  | (.ok vh, ch₁) =>
    match VolumeHandle.root drv ch₁ vh with
    | (.error e, ch₂, _) => some (.error e, ch₂)
    | (.ok dh, ch₂, vh₂) =>
      match DirectoryHandle.file drv ch₂ vh₂ dh name mode with
      | none => none
      | some (.error e, ch₃, vh₃) =>
        match DirectoryHandle.drop drv ch₃ vh₃ dh with
        | none => none
        | some (ch₄, _, _, _) => some (.error e, ch₄)
      | some (.ok fh, ch₃, vh₃) =>
        match FileHandle.write drv ch₃ vh₃ fh data with
        | none => none
        | some (r, ch₄, vh₄, fh₄) =>
          match FileHandle.drop drv ch₄ vh₄ fh₄ with
          | none => none
          | some (ch₅, vh₅, _, _) =>
            match DirectoryHandle.drop drv ch₅ vh₅ dh with
            | none => none
            | some (ch₆, _, _, _) => some (r, ch₆)

/-! ### Concrete driver instances

Small executable drivers used to evaluate the theorems on concrete inputs.
`testDriver` always succeeds; `failDriver` fails every fallible call with a
device error. -/

/-- A concrete FAT volume record. -/
def testVolume : Volume := ⟨.fat ⟨100, 8, 12, some 5⟩⟩

/-- A concrete FAT volume record with no tracked free-cluster count. -/
def testVolumeNoFree : Volume := ⟨.fat ⟨100, 8, 12, none⟩⟩

/-- An always-succeeding driver over state `Nat`, error type `Nat` and mode
type `Nat`. -/
def testDriver : Driver Nat Nat Nat where
  get_volume := fun s _ => (.ok testVolume, s + 1)
  open_root_dir := fun s _ => (.ok ⟨s⟩, s + 1)
  close_dir := fun s _ _ => s + 1
  open_file_in_dir := fun s v _ _ _ => (.ok ⟨0, 0⟩, v, s + 1)
  close_file := fun s _ _ => (.ok (), s + 1)
  read := fun s v f n => (.ok n, v, f, s + 1)
  write := fun s v f data =>
    (.ok data.length, v, { f with length := f.length + data.length }, s + 1)

/-- A driver whose every fallible call fails with `deviceError 7`. -/
def failDriver : Driver Nat Nat Nat where
  get_volume := fun s _ => (.error (.deviceError 7), s + 1)
  open_root_dir := fun s _ => (.error (.deviceError 7), s + 1)
  close_dir := fun s _ _ => s + 1
  open_file_in_dir := fun s v _ _ _ => (.error (.deviceError 7), v, s + 1)
  close_file := fun s _ _ => (.error (.deviceError 7), s + 1)
  read := fun s v f _ => (.error (.deviceError 7), v, f, s + 1)
  write := fun s v f _ => (.error (.deviceError 7), v, f, s + 1)

/-! ### Claim theorems -/

/-- C3: an operation that attempts to obtain mutable access to the
controller (or to a volume) while another mutable access is outstanding
(borrow flag set) returns immediately with `ControllerInUse` (respectively
`VolumeInUse`), leaving the controller state, the volume state and every
flag exactly as they were — no driver call is made and nothing is mutated.
Stated for every operation of the wrapper. -/
theorem in_use_fast_fail (drv : Driver σ ε μ) (c : σ) (v : Volume) (vb : Bool)
    (index : Nat) (d : Directory) (f : File) (name : String) (mode : μ)
    (bufLen : Nat) (data : List Nat) :
    (ControllerHandle.volume drv ⟨c, true⟩ index = (.error .controllerInUse, ⟨c, true⟩)) ∧
    (ControllerHandle.root drv ⟨c, true⟩ ⟨v, vb⟩ =
      (.error .controllerInUse, ⟨c, true⟩, ⟨v, vb⟩)) ∧
    (ControllerHandle.close_directory drv ⟨c, true⟩ ⟨v, vb⟩ d =
      (.error .controllerInUse, ⟨c, true⟩, ⟨v, vb⟩)) ∧
    (ControllerHandle.file drv ⟨c, true⟩ ⟨v, vb⟩ d name mode =
      (.error .controllerInUse, ⟨c, true⟩, ⟨v, vb⟩)) ∧
    (ControllerHandle.close_file drv ⟨c, true⟩ ⟨v, vb⟩ f =
      (.error .controllerInUse, ⟨c, true⟩, ⟨v, vb⟩)) ∧
    (ControllerHandle.read drv ⟨c, true⟩ ⟨v, vb⟩ f bufLen =
      (.error .controllerInUse, ⟨c, true⟩, ⟨v, vb⟩, f)) ∧
    (ControllerHandle.write drv ⟨c, true⟩ ⟨v, vb⟩ f data =
      (.error .controllerInUse, ⟨c, true⟩, ⟨v, vb⟩, f)) ∧
    (ControllerHandle.root drv ⟨c, false⟩ ⟨v, true⟩ =
      (.error .volumeInUse, ⟨c, false⟩, ⟨v, true⟩)) ∧
    (ControllerHandle.close_directory drv ⟨c, false⟩ ⟨v, true⟩ d =
      (.error .volumeInUse, ⟨c, false⟩, ⟨v, true⟩)) ∧
    (ControllerHandle.file drv ⟨c, false⟩ ⟨v, true⟩ d name mode =
      (.error .volumeInUse, ⟨c, false⟩, ⟨v, true⟩)) ∧
    (ControllerHandle.close_file drv ⟨c, false⟩ ⟨v, true⟩ f =
      (.error .volumeInUse, ⟨c, false⟩, ⟨v, true⟩)) ∧
    (ControllerHandle.read drv ⟨c, false⟩ ⟨v, true⟩ f bufLen =
      (.error .volumeInUse, ⟨c, false⟩, ⟨v, true⟩, f)) ∧
    (ControllerHandle.write drv ⟨c, false⟩ ⟨v, true⟩ f data =
      (.error .volumeInUse, ⟨c, false⟩, ⟨v, true⟩, f)) ∧
    (@VolumeHandle.num_blocks ε ⟨v, true⟩ = (.error .volumeInUse, ⟨v, true⟩)) ∧
    (@VolumeHandle.blocks_per_cluster ε ⟨v, true⟩ = (.error .volumeInUse, ⟨v, true⟩)) ∧
    (@VolumeHandle.cluster_count ε ⟨v, true⟩ = (.error .volumeInUse, ⟨v, true⟩)) ∧
    (@VolumeHandle.free_clusters_count ε ⟨v, true⟩ = (.error .volumeInUse, ⟨v, true⟩)) := by
  refine ⟨rfl, rfl, rfl, rfl, rfl, rfl, rfl, ?_, ?_, ?_, ?_, ?_, ?_, rfl, rfl, rfl, rfl⟩ <;>
    simp [ControllerHandle.root, ControllerHandle.close_directory, ControllerHandle.file,
      ControllerHandle.close_file, ControllerHandle.read, ControllerHandle.write]

/-- C9: `close_directory` can fail only through its two guard acquisitions;
once both guards are acquired it always returns `Ok(())`, because the
driver's `close_dir` has no failure channel.  The result is exactly
`ControllerInUse` when the controller guard is held, `VolumeInUse` when the
controller guard is free but the volume guard is held, and `Ok(())`
otherwise — for every driver. -/
theorem close_directory_infallible (drv : Driver σ ε μ) (c : σ) (v : Volume)
    (cb vb : Bool) (d : Directory) :
    (ControllerHandle.close_directory drv ⟨c, cb⟩ ⟨v, vb⟩ d).1 =
      (if cb then .error .controllerInUse
       else if vb then .error .volumeInUse
       else .ok ()) ∧
    (ControllerHandle.close_directory drv ⟨c, false⟩ ⟨v, false⟩ d =
      (.ok (), ⟨drv.close_dir c v d, false⟩, ⟨v, false⟩)) := by
  cases cb <;> cases vb <;>
    simp [ControllerHandle.close_directory]

/-- C7: `free_clusters_count` succeeds with `Ok(0)` whenever the volume
guard is free and the FAT record's optional free-cluster count is absent
(`unwrap_or(0)` of `None`), and fails exactly with `VolumeInUse` when the
volume guard is already held — like the other accessors. -/
theorem free_clusters_count_defaults_zero (v : Volume) (nb bpc cc : Nat) :
    (@VolumeHandle.free_clusters_count ε ⟨⟨.fat ⟨nb, bpc, cc, none⟩⟩, false⟩ =
      (.ok 0, ⟨⟨.fat ⟨nb, bpc, cc, none⟩⟩, false⟩)) ∧
    (@VolumeHandle.free_clusters_count ε ⟨v, true⟩ = (.error .volumeInUse, ⟨v, true⟩)) ∧
    (@VolumeHandle.num_blocks ε ⟨v, true⟩ = (.error .volumeInUse, ⟨v, true⟩)) := by
  refine ⟨?_, rfl, rfl⟩
  simp [VolumeHandle.free_clusters_count]

/-- C8: `size()` is a pure projection of the cached `length` field of the
handle's file token — its type takes no driver, no controller/volume state
and no guard — and after a `write` (or `read`) through the handle the token
is exactly the one the driver returned, so `size()` reflects the length as
of the most recent operation. -/
theorem size_returns_cached_length (drv : Driver σ ε μ) (c : σ) (v : Volume)
    (f : File) (data : List Nat) (bufLen : Nat) :
    (FileHandle.size ⟨some f⟩ = some f.length) ∧
    (FileHandle.write drv ⟨c, false⟩ ⟨v, false⟩ ⟨some f⟩ data =
      some ((drv.write c v f data).1, ⟨(drv.write c v f data).2.2.2, false⟩,
        ⟨(drv.write c v f data).2.1, false⟩, ⟨some (drv.write c v f data).2.2.1⟩)) ∧
    (FileHandle.size ⟨some (drv.write c v f data).2.2.1⟩ =
      some (drv.write c v f data).2.2.1.length) ∧
    (FileHandle.read drv ⟨c, false⟩ ⟨v, false⟩ ⟨some f⟩ bufLen =
      some ((drv.read c v f bufLen).1, ⟨(drv.read c v f bufLen).2.2.2, false⟩,
        ⟨(drv.read c v f bufLen).2.1, false⟩, ⟨some (drv.read c v f bufLen).2.2.1⟩)) := by
  refine ⟨rfl, ?_, rfl, ?_⟩ <;>
    simp [FileHandle.write, FileHandle.read, ControllerHandle.write, ControllerHandle.read]

/-- C4: a driver-level release failure during a drop is never raised to the
caller: the drop completes normally (the drop has no error channel and does
not panic), the handle's token option is emptied, and the failure — when
there is one — is exactly the single entry written to the diagnostic log.
Stated as a complete description of both drop handlers on a live handle with
free guards: the log is `[e]` when the driver's `close_file` fails with `e`
and `[]` otherwise; directory release cannot fail there at all. -/
theorem drop_release_error_logged (drv : Driver σ ε μ) (c : σ) (v : Volume)
    (f : File) (d : Directory) :
    (FileHandle.drop drv ⟨c, false⟩ ⟨v, false⟩ ⟨some f⟩ =
      some (⟨(drv.close_file c v f).2, false⟩, ⟨v, false⟩, ⟨none⟩,
        match (drv.close_file c v f).1 with
        | .error e => [e]
        | .ok _ => [])) ∧
    (DirectoryHandle.drop drv ⟨c, false⟩ ⟨v, false⟩ ⟨some d⟩ =
      some (⟨drv.close_dir c v d, false⟩, ⟨v, false⟩, ⟨none⟩, [])) := by
  constructor
  · simp only [FileHandle.drop, ControllerHandle.close_file]
    simp
  · simp [DirectoryHandle.drop, ControllerHandle.close_directory]

/-- C6: when the guard acquisitions succeed (both flags free) and the
underlying driver call returns an error `e`, the wrapper operation returns
exactly `e` — unmodified, with no recovery or retry — for each driver-calling
operation (`volume`, `root`, `file`, `close_file`, `read`, `write`). -/
theorem driver_error_passthrough (drv : Driver σ ε μ) (c : σ) (v : Volume) (index : Nat)
    (d : Directory) (f : File) (name : String) (mode : μ) (bufLen : Nat) (data : List Nat) :
    (∀ e, (drv.get_volume c index).1 = .error e →
      (ControllerHandle.volume drv ⟨c, false⟩ index).1 = .error e) ∧
    (∀ e, (drv.open_root_dir c v).1 = .error e →
      (ControllerHandle.root drv ⟨c, false⟩ ⟨v, false⟩).1 = .error e) ∧
    (∀ e, (drv.open_file_in_dir c v d name mode).1 = .error e →
      (ControllerHandle.file drv ⟨c, false⟩ ⟨v, false⟩ d name mode).1 = .error e) ∧
    (∀ e, (drv.close_file c v f).1 = .error e →
      (ControllerHandle.close_file drv ⟨c, false⟩ ⟨v, false⟩ f).1 = .error e) ∧
    (∀ e, (drv.read c v f bufLen).1 = .error e →
      (ControllerHandle.read drv ⟨c, false⟩ ⟨v, false⟩ f bufLen).1 = .error e) ∧
    (∀ e, (drv.write c v f data).1 = .error e →
      (ControllerHandle.write drv ⟨c, false⟩ ⟨v, false⟩ f data).1 = .error e) := by
  refine ⟨fun e h => ?_, fun e h => ?_, fun e h => ?_, fun e h => ?_, fun e h => ?_,
    fun e h => ?_⟩ <;>
    simp [ControllerHandle.volume, ControllerHandle.root, ControllerHandle.file,
      ControllerHandle.close_file, ControllerHandle.read, ControllerHandle.write, h]

/-- C6 witness: at the concrete `failDriver`, `volume`, `root`, `file`,
`close_file`, `read` and `write` all return the driver's `deviceError 7`
unchanged. -/
theorem driver_error_passthrough_witness :
    (ControllerHandle.volume failDriver ⟨0, false⟩ 0).1 = .error (.deviceError 7) ∧
    (ControllerHandle.root failDriver ⟨0, false⟩ ⟨testVolume, false⟩).1 =
      .error (.deviceError 7) ∧
    (ControllerHandle.write failDriver ⟨0, false⟩ ⟨testVolume, false⟩ ⟨3, 0⟩ [1, 2]).1 =
      .error (.deviceError 7) := by
  obtain ⟨h₁, h₂, _, _, _, h₆⟩ :=
    driver_error_passthrough failDriver 0 testVolume 0 ⟨0⟩ ⟨3, 0⟩ "A.TXT" 0 4 [1, 2]
  exact ⟨h₁ _ rfl, h₂ _ rfl, h₆ _ rfl⟩

/-- C5: no exclusivity guard is held across calls — every operation leaves
the controller and volume borrow flags exactly as it found them, on the
success path as on every error path (first block of conjuncts); and from a
free state the wrapper's own guard checks pass, so any error the call
returns — in particular any in-use error — is the driver's own result, not
the wrapper's guard firing on account of an earlier completed call (second
block). -/
theorem guard_released_every_call (drv : Driver σ ε μ) (ch : ControllerHandle σ)
    (vh : VolumeHandle) (c : σ) (v : Volume) (index : Nat) (d : Directory) (f : File)
    (name : String) (mode : μ) (bufLen : Nat) (data : List Nat) :
    ((ControllerHandle.volume drv ch index).2.borrowed = ch.borrowed) ∧
    ((ControllerHandle.root drv ch vh).2.1.borrowed = ch.borrowed) ∧
    ((ControllerHandle.root drv ch vh).2.2.borrowed = vh.borrowed) ∧
    ((ControllerHandle.close_directory drv ch vh d).2.1.borrowed = ch.borrowed) ∧
    ((ControllerHandle.close_directory drv ch vh d).2.2.borrowed = vh.borrowed) ∧
    ((ControllerHandle.file drv ch vh d name mode).2.1.borrowed = ch.borrowed) ∧
    ((ControllerHandle.file drv ch vh d name mode).2.2.borrowed = vh.borrowed) ∧
    ((ControllerHandle.close_file drv ch vh f).2.1.borrowed = ch.borrowed) ∧
    ((ControllerHandle.close_file drv ch vh f).2.2.borrowed = vh.borrowed) ∧
    ((ControllerHandle.read drv ch vh f bufLen).2.1.borrowed = ch.borrowed) ∧
    ((ControllerHandle.read drv ch vh f bufLen).2.2.1.borrowed = vh.borrowed) ∧
    ((ControllerHandle.write drv ch vh f data).2.1.borrowed = ch.borrowed) ∧
    ((ControllerHandle.write drv ch vh f data).2.2.1.borrowed = vh.borrowed) ∧
    ((@VolumeHandle.num_blocks ε vh).2.borrowed = vh.borrowed) ∧
    ((@VolumeHandle.blocks_per_cluster ε vh).2.borrowed = vh.borrowed) ∧
    ((@VolumeHandle.cluster_count ε vh).2.borrowed = vh.borrowed) ∧
    ((@VolumeHandle.free_clusters_count ε vh).2.borrowed = vh.borrowed) ∧
    (∀ e, (ControllerHandle.volume drv ⟨c, false⟩ index).1 = .error e →
      (drv.get_volume c index).1 = .error e) ∧
    (∀ e, (ControllerHandle.root drv ⟨c, false⟩ ⟨v, false⟩).1 = .error e →
      (drv.open_root_dir c v).1 = .error e) ∧
    (∀ e, (ControllerHandle.file drv ⟨c, false⟩ ⟨v, false⟩ d name mode).1 = .error e →
      (drv.open_file_in_dir c v d name mode).1 = .error e) ∧
    (∀ e, (ControllerHandle.close_file drv ⟨c, false⟩ ⟨v, false⟩ f).1 = .error e →
      (drv.close_file c v f).1 = .error e) ∧
    (∀ e, (ControllerHandle.read drv ⟨c, false⟩ ⟨v, false⟩ f bufLen).1 = .error e →
      (drv.read c v f bufLen).1 = .error e) ∧
    (∀ e, (ControllerHandle.write drv ⟨c, false⟩ ⟨v, false⟩ f data).1 = .error e →
      (drv.write c v f data).1 = .error e) := by
  obtain ⟨cc, cb⟩ := ch
  obtain ⟨vv, vb⟩ := vh
  refine ⟨?_, ?_, ?_, ?_, ?_, ?_, ?_, ?_, ?_, ?_, ?_, ?_, ?_, ?_, ?_, ?_, ?_,
    fun e h => ?_, fun e h => ?_, fun e h => ?_, fun e h => ?_, fun e h => ?_,
    fun e h => ?_⟩ <;>
  · first
    | (cases cb <;> cases vb <;>
        simp [ControllerHandle.volume, ControllerHandle.root,
          ControllerHandle.close_directory, ControllerHandle.file,
          ControllerHandle.close_file, ControllerHandle.read, ControllerHandle.write,
          VolumeHandle.num_blocks, VolumeHandle.blocks_per_cluster,
          VolumeHandle.cluster_count, VolumeHandle.free_clusters_count] <;>
        split <;> simp)
    | (revert h
       simp [ControllerHandle.volume, ControllerHandle.root, ControllerHandle.file,
         ControllerHandle.close_file, ControllerHandle.read, ControllerHandle.write] <;>
       split <;> simp_all)

/-- C5 witness: at the concrete `testDriver`, a `volume` call from a free
controller leaves the flag free, and an error returned by `write` at the
concrete `failDriver` from free guards is the driver's own error. -/
theorem guard_released_every_call_witness :
    (ControllerHandle.volume testDriver ⟨0, false⟩ 0).2.borrowed = false ∧
    (failDriver.write 0 testVolume ⟨3, 0⟩ [1, 2]).1 = .error (.deviceError 7) := by
  obtain ⟨h₁, rest⟩ :=
    guard_released_every_call testDriver ⟨0, false⟩ ⟨testVolume, false⟩ 0 testVolume 0
      ⟨0⟩ ⟨3, 0⟩ "A.TXT" 0 4 [1, 2]
  obtain ⟨h₁', _, _, _, _, _, _, _, _, _, _, _, _, _, _, _, _, _, _, _, _, h₂⟩ :=
    guard_released_every_call failDriver ⟨0, false⟩ ⟨testVolume, false⟩ 0 testVolume 0
      ⟨0⟩ ⟨3, 0⟩ "A.TXT" 0 4 [1, 2]
  exact ⟨h₁, h₂.2 _ rfl⟩

/-- C10: the `Option` holding the driver token is `Some` from construction
until the drop handler takes it, and the `unwrap`s inside
`DirectoryHandle::file`, `FileHandle::read`/`write`/`size` and both `Drop`
implementations never panic on a handle obtained through the public
interface: a successful open stores `Some token`; every public operation on
a live handle returns (no `none`, i.e. no panic) and leaves the token
`Some`; and the drop handlers return on a live handle (the `none` cases of
the embedding — the panics — are unreachable). -/
theorem token_some_until_drop (drv : Driver σ ε μ) (ch : ControllerHandle σ)
    (vh : VolumeHandle) (c : σ) (v : Volume) (d : Directory) (f : File)
    (name : String) (mode : μ) (bufLen : Nat) (data : List Nat) :
    ((ControllerHandle.root drv ⟨c, false⟩ ⟨v, false⟩).1 =
      (drv.open_root_dir c v).1.map (fun dir => (⟨some dir⟩ : DirectoryHandle))) ∧
    ((ControllerHandle.file drv ⟨c, false⟩ ⟨v, false⟩ d name mode).1 =
      (drv.open_file_in_dir c v d name mode).1.map (fun fl => (⟨some fl⟩ : FileHandle))) ∧
    ((DirectoryHandle.file drv ch vh ⟨some d⟩ name mode).isSome = true) ∧
    (∀ out, FileHandle.read drv ch vh ⟨some f⟩ bufLen = some out →
      out.2.2.2.file.isSome = true) ∧
    ((FileHandle.read drv ch vh ⟨some f⟩ bufLen).isSome = true) ∧
    (∀ out, FileHandle.write drv ch vh ⟨some f⟩ data = some out →
      out.2.2.2.file.isSome = true) ∧
    ((FileHandle.write drv ch vh ⟨some f⟩ data).isSome = true) ∧
    (FileHandle.size ⟨some f⟩ = some f.length) ∧
    ((DirectoryHandle.drop drv ch vh ⟨some d⟩).isSome = true) ∧
    ((FileHandle.drop drv ch vh ⟨some f⟩).isSome = true) := by
  refine ⟨?_, ?_, rfl, ?_, rfl, ?_, rfl, rfl, rfl, rfl⟩
  · rcases h : (drv.open_root_dir c v).1 with e | dir <;>
      simp [ControllerHandle.root, h, Except.map]
  · rcases h : (drv.open_file_in_dir c v d name mode).1 with e | fl <;>
      simp [ControllerHandle.file, h, Except.map]
  · intro out hout
    simp only [FileHandle.read] at hout
    cases hout
    rfl
  · intro out hout
    simp only [FileHandle.write] at hout
    cases hout
    rfl

/-- C10 witness: at the concrete `testDriver`, a `read` through a live file
handle keeps the token `Some`. -/
theorem token_some_until_drop_witness :
    ((Except.ok 4 : Except (Error Nat) Nat), (⟨1, false⟩ : ControllerHandle Nat),
      (⟨testVolume, false⟩ : VolumeHandle),
      (⟨some ⟨3, 0⟩⟩ : FileHandle)).2.2.2.file.isSome = true :=
  (token_some_until_drop testDriver ⟨0, false⟩ ⟨testVolume, false⟩ 0 testVolume
    ⟨0⟩ ⟨3, 0⟩ "A.TXT" 0 4 [1, 2]).2.2.2.1 _ rfl

/-- Helper: over the instrumented driver, a sequence of public `FileHandle`
calls from a clean state never panics, keeps both guard flags clear, keeps
the token `Some`, and emits no `close_file` and no `close_dir` event. -/
theorem runFileOps_clean (drv : Driver σ ε μ) (ops : List (FileOp μ)) :
    ∀ (s : σ) (tr : List (Event μ)) (v : Volume) (f : File),
    ∃ s' tr' v' f',
      runFileOps drv.traced ops ⟨(s, tr), false⟩ ⟨v, false⟩ ⟨some f⟩ =
        some (⟨(s', tr ++ tr'), false⟩, ⟨v', false⟩, ⟨some f'⟩) ∧
      closeFileCount tr' = 0 ∧ closeDirCount tr' = 0 := by
  induction ops with
  | nil =>
    intro s tr v f
    exact ⟨s, [], v, f, by simp [runFileOps], by simp [closeFileCount],
      by simp [closeDirCount]⟩
  | cons op ops ih =>
    intro s tr v f
    cases op with
    | read n =>
      obtain ⟨s', tr', v', f', hrun, hcf, hcd⟩ :=
        ih (drv.read s v f n).2.2.2 (tr ++ [.read f n]) (drv.read s v f n).2.1
          (drv.read s v f n).2.2.1
      refine ⟨s', .read f n :: tr', v', f', ?_, ?_, ?_⟩
      · simp only [runFileOps, FileHandle.read, ControllerHandle.read, Driver.traced]
        simpa using hrun
      · simpa [closeFileCount, Event.isCloseFile] using hcf
      · simpa [closeDirCount, Event.isCloseDir] using hcd
    | write data =>
      obtain ⟨s', tr', v', f', hrun, hcf, hcd⟩ :=
        ih (drv.write s v f data).2.2.2 (tr ++ [.write f data]) (drv.write s v f data).2.1
          (drv.write s v f data).2.2.1
      refine ⟨s', .write f data :: tr', v', f', ?_, ?_, ?_⟩
      · simp only [runFileOps, FileHandle.write, ControllerHandle.write, Driver.traced]
        simpa using hrun
      · simpa [closeFileCount, Event.isCloseFile] using hcf
      · simpa [closeDirCount, Event.isCloseDir] using hcd
    | size =>
      obtain ⟨s', tr', v', f', hrun, hcf, hcd⟩ := ih s tr v f
      exact ⟨s', tr', v', f', by simpa [runFileOps, FileHandle.size] using hrun, hcf, hcd⟩

/-- Helper: over the instrumented driver, a sequence of public
`DirectoryHandle` calls (each opened file handle dropped at the end of its
nested scope) from a clean state never panics, keeps both guard flags clear,
leaves the directory token untouched, and emits no `close_dir` event. -/
theorem runDirOps_clean (drv : Driver σ ε μ) (ops : List (DirOp μ)) :
    ∀ (s : σ) (tr : List (Event μ)) (v : Volume) (d : Directory),
    ∃ s' tr' v',
      runDirOps drv.traced ops ⟨(s, tr), false⟩ ⟨v, false⟩ ⟨some d⟩ =
        some (⟨(s', tr ++ tr'), false⟩, ⟨v', false⟩, ⟨some d⟩) ∧
      closeDirCount tr' = 0 := by
  induction ops with
  | nil =>
    intro s tr v d
    exact ⟨s, [], v, by simp [runDirOps], by simp [closeDirCount]⟩
  | cons op ops ih =>
    intro s tr v d
    cases op with
    | file name mode =>
      rcases h : (drv.open_file_in_dir s v d name mode) with ⟨r₁, v₁, s₁⟩
      cases r₁ with
      | error e =>
        obtain ⟨s', tr', v', hrun, hcd⟩ :=
          ih s₁ (tr ++ [.open_file_in_dir name mode]) v₁ d
        refine ⟨s', .open_file_in_dir name mode :: tr', v', ?_, ?_⟩
        · simp only [runDirOps, DirectoryHandle.file, ControllerHandle.file, Driver.traced]
          simp only [h]
          simpa using hrun
        · simpa [closeDirCount, Event.isCloseDir] using hcd
      | ok fl =>
        obtain ⟨s', tr', v', hrun, hcd⟩ :=
          ih (drv.close_file s₁ v₁ fl).2
            (tr ++ [.open_file_in_dir name mode, .close_file fl]) v₁ d
        refine ⟨s', .open_file_in_dir name mode :: .close_file fl :: tr', v', ?_, ?_⟩
        · simp only [runDirOps, DirectoryHandle.file, ControllerHandle.file,
            FileHandle.drop, ControllerHandle.close_file, Driver.traced]
          simp only [h]
          simpa using hrun
        · simpa [closeDirCount, Event.isCloseDir] using hcd

/-- C1: over any driver and any sequence of public-interface calls, a
directory/file token created by a successful open is forwarded to the
driver's release operation (`close_dir` / `close_file`) exactly once over
the handle's lifetime, precisely at the drop: the instrumented trace
contains no release event for the handle while it is in use (count 0 over
the whole pre-drop trace, however many reads/writes/opens occurred and
whether they succeeded or failed), and after the drop it contains exactly
one, carrying the token the handle held; the drop also empties the
handle's token so it can never be released again. -/
theorem token_released_exactly_once (drv : Driver σ ε μ) (fileOps : List (FileOp μ))
    (dirOps : List (DirOp μ)) (s t : σ) (v w : Volume) (f : File) (d : Directory) :
    (∃ s₁ tr₁ v₁ f₁ s₂ log,
      runFileOps drv.traced fileOps ⟨(s, []), false⟩ ⟨v, false⟩ ⟨some f⟩ =
        some (⟨(s₁, tr₁), false⟩, ⟨v₁, false⟩, ⟨some f₁⟩) ∧
      closeFileCount tr₁ = 0 ∧ closeDirCount tr₁ = 0 ∧
      FileHandle.drop drv.traced ⟨(s₁, tr₁), false⟩ ⟨v₁, false⟩ ⟨some f₁⟩ =
        some (⟨(s₂, tr₁ ++ [.close_file f₁]), false⟩, ⟨v₁, false⟩, ⟨none⟩, log) ∧
      closeFileCount (tr₁ ++ [.close_file f₁]) = 1) ∧
    (∃ s₁ tr₁ v₁ s₂ log,
      runDirOps drv.traced dirOps ⟨(t, []), false⟩ ⟨w, false⟩ ⟨some d⟩ =
        some (⟨(s₁, tr₁), false⟩, ⟨v₁, false⟩, ⟨some d⟩) ∧
      closeDirCount tr₁ = 0 ∧
      DirectoryHandle.drop drv.traced ⟨(s₁, tr₁), false⟩ ⟨v₁, false⟩ ⟨some d⟩ =
        some (⟨(s₂, tr₁ ++ [.close_dir d]), false⟩, ⟨v₁, false⟩, ⟨none⟩, log) ∧
      closeDirCount (tr₁ ++ [.close_dir d]) = 1) := by
  constructor
  · obtain ⟨s₁, tr₁, v₁, f₁, hrun, hcf, hcd⟩ := runFileOps_clean drv fileOps s [] v f
    refine ⟨s₁, tr₁, v₁, f₁, (drv.close_file s₁ v₁ f₁).2,
      (match (drv.close_file s₁ v₁ f₁).1 with
        | .error e => [e]
        | .ok _ => []), by simpa using hrun, hcf, hcd, ?_, ?_⟩
    · simp only [FileHandle.drop, ControllerHandle.close_file, Driver.traced]
      simp
    · simpa [closeFileCount, Event.isCloseFile] using hcf
  · obtain ⟨s₁, tr₁, v₁, hrun, hcd⟩ := runDirOps_clean drv dirOps t [] w d
    refine ⟨s₁, tr₁, v₁, drv.close_dir s₁ v₁ d, [], by simpa using hrun, hcd, ?_, ?_⟩
    · simp only [DirectoryHandle.drop, ControllerHandle.close_directory, Driver.traced]
      simp
    · simpa [closeDirCount, Event.isCloseDir] using hcd

/-- C2: `write_root_file(index, name, mode, data)` returns exactly what the
explicit sequence `volume(index)` → `root()` → `file(name, mode)` →
`write(data)` returns — same result, same final state, for every controller
state (first conjunct) — and, shown on the instrumented driver from a clean
start: the first error of the chain is propagated unchanged with none of
the later steps performed (the trace stops at the failing call), and by the
time the call returns the intermediate handles have already performed their
release side effects: after a successful `root` the trace ends with exactly
one `close_dir`, and after a successful file open with a `close_file`
followed by that `close_dir`, whether the final `write` succeeded or not. -/
theorem write_root_file_equiv (drv : Driver σ ε μ) (ch : ControllerHandle σ)
    (index : Nat) (name : String) (mode : μ) (data : List Nat) (s : σ) :
    (ControllerHandle.write_root_file drv ch index name mode data =
      explicitWriteSequence drv ch index name mode data) ∧
    (∀ e s₁, drv.get_volume s index = (.error e, s₁) →
      ControllerHandle.write_root_file drv.traced ⟨(s, []), false⟩ index name mode data =
        some (.error e, ⟨(s₁, [.get_volume index]), false⟩)) ∧
    (∀ v₁ s₁ e s₂, drv.get_volume s index = (.ok v₁, s₁) →
      drv.open_root_dir s₁ v₁ = (.error e, s₂) →
      ControllerHandle.write_root_file drv.traced ⟨(s, []), false⟩ index name mode data =
        some (.error e, ⟨(s₂, [.get_volume index, .open_root_dir]), false⟩)) ∧
    (∀ v₁ s₁ d s₂ e v₂ s₃, drv.get_volume s index = (.ok v₁, s₁) →
      drv.open_root_dir s₁ v₁ = (.ok d, s₂) →
      drv.open_file_in_dir s₂ v₁ d name mode = (.error e, v₂, s₃) →
      ControllerHandle.write_root_file drv.traced ⟨(s, []), false⟩ index name mode data =
        some (.error e, ⟨(drv.close_dir s₃ v₂ d,
          [.get_volume index, .open_root_dir, .open_file_in_dir name mode, .close_dir d]),
          false⟩)) ∧
    (∀ v₁ s₁ d s₂ fl v₂ s₃ r v₃ f₃ s₄, drv.get_volume s index = (.ok v₁, s₁) →
      drv.open_root_dir s₁ v₁ = (.ok d, s₂) →
      drv.open_file_in_dir s₂ v₁ d name mode = (.ok fl, v₂, s₃) →
      drv.write s₃ v₂ fl data = (r, v₃, f₃, s₄) →
      ControllerHandle.write_root_file drv.traced ⟨(s, []), false⟩ index name mode data =
        some (r, ⟨(drv.close_dir (drv.close_file s₄ v₃ f₃).2 v₃ d,
          [.get_volume index, .open_root_dir, .open_file_in_dir name mode,
            .write fl data, .close_file f₃, .close_dir d]), false⟩)) := by
  refine ⟨rfl, fun e s₁ h₁ => ?_, fun v₁ s₁ e s₂ h₁ h₂ => ?_,
    fun v₁ s₁ d s₂ e v₂ s₃ h₁ h₂ h₃ => ?_,
    fun v₁ s₁ d s₂ fl v₂ s₃ r v₃ f₃ s₄ h₁ h₂ h₃ h₄ => ?_⟩ <;>
    simp [ControllerHandle.write_root_file, ControllerHandle.volume, VolumeHandle.root,
      ControllerHandle.root, DirectoryHandle.file, ControllerHandle.file,
      FileHandle.write, ControllerHandle.write, FileHandle.drop,
      ControllerHandle.close_file, DirectoryHandle.drop,
      ControllerHandle.close_directory, Driver.traced, h₁]
  · simp [h₂]
  · simp [h₂, h₃]
  · simp [h₂, h₃, h₄]

/-- C2 witness: at the concrete `testDriver`, `write_root_file` writes three
bytes, returns `Ok 3`, and its trace shows the file and directory releases
performed before returning; at the concrete `failDriver` the first error of
the sequence (`deviceError 7` from `get_volume`) is propagated with nothing
else done. -/
theorem write_root_file_equiv_witness :
    (ControllerHandle.write_root_file testDriver.traced ⟨(0, []), false⟩ 0 "A.TXT" 0
        [1, 2, 3] =
      some (.ok 3, ⟨(6, [.get_volume 0, .open_root_dir, .open_file_in_dir "A.TXT" 0,
        .write ⟨0, 0⟩ [1, 2, 3], .close_file ⟨3, 0⟩, .close_dir ⟨1⟩]), false⟩)) ∧
    (ControllerHandle.write_root_file failDriver.traced ⟨(0, []), false⟩ 0 "A.TXT" 0
        [1, 2, 3] =
      some (.error (.deviceError 7), ⟨(1, [.get_volume 0]), false⟩)) := by
  constructor
  · exact (write_root_file_equiv testDriver ⟨0, false⟩ 0 "A.TXT" 0 [1, 2, 3] 0).2.2.2.2
      testVolume 1 ⟨1⟩ 2 ⟨0, 0⟩ testVolume 3 (.ok 3) testVolume ⟨3, 0⟩ 4 rfl rfl rfl rfl
  · exact (write_root_file_equiv failDriver ⟨0, false⟩ 0 "A.TXT" 0 [1, 2, 3] 0).2.1
      (.deviceError 7) 1 rfl

end Sdmmc
